import Mathlib

/-!
Verification of the gofred client library's parameter-composition and
response-decoding core, shallowly embedded from the Go source.

`url.Values` is modelled as a partial map `String → Option String`; the
library only ever uses `Set` (replace) and key lookup on it, so this
captures exactly the observable behavior of the merged parameter sets.
-/

namespace Gofred

/-- Model of Go's `url.Values` restricted to the operations the library
uses: `Set` (which replaces the value at a key) and lookup. -/
def Params : Type := String → Option String

/-- Model of `url.Values.Set`: replaces the binding at key `k` with `val`. -/
def Params.set (v : Params) (k val : String) : Params :=
  fun q => if q = k then some val else v q

/-- The empty parameter set, the starting point of every `ToParams`. -/
def Params.empty : Params := fun _ => none

/-- Enum `ResponseFormat` (src/lib.go): selects JSON or XML wire format. -/
inductive ResponseFormat
  | JSON
  | XML
deriving DecidableEq

/-- Wire string of a `ResponseFormat`, from `ResponseFormat.String`
(src/lib.go lines 38-47); the Go `default` branch is unreachable for the
two declared values. -/
def ResponseFormat.string : ResponseFormat → String
  | .JSON => "json"
  | .XML => "xml"

/-- Type `ApiKey` (src/lib.go line 53). -/
abbrev ApiKey := String

/-- Method `ApiKey.String` (src/lib.go lines 55-57): stringification of the
credential is the constant string "REDACTED". -/
def ApiKey.string (_ : ApiKey) : String := "REDACTED"

/-- Struct `baseRequest` (src/lib.go lines 70-73). -/
structure BaseRequest where
  fmt : ResponseFormat
  api_key : ApiKey
deriving DecidableEq

/-- Method `baseRequest.MergeParams` (src/lib.go lines 82-85). -/
def BaseRequest.MergeParams (r : BaseRequest) (v : Params) : Params :=
  (v.set "api_key" r.api_key).set "file_type" r.fmt.string

/-- Method `baseRequest.ToParams` (src/lib.go lines 76-80). -/
def BaseRequest.ToParams (r : BaseRequest) : Params :=
  r.MergeParams Params.empty

/-- Calendar date, the date part of Go's `time.Time` as used by the `Date`
type (src/lib.go line 252); the library only ever formats dates with the
`2006-01-02` layout, so the clock part is never observable here. -/
structure Date where
  year : Nat
  month : Nat
  day : Nat
deriving DecidableEq

/-- The zero `time.Time` value is January 1 of year 1. -/
def Date.zeroValue : Date := ⟨1, 1, 1⟩

/-- Model of `time.Time.IsZero` on the date part. -/
def Date.IsZero (d : Date) : Bool :=
  d.year == 1 && d.month == 1 && d.day == 1

/-- Left-pads the decimal representation of `n` with zeros to `width`. -/
def padZeros (width n : Nat) : String :=
  String.mk (List.replicate (width - (toString n).length) '0') ++ toString n

/-- Model of `time.Time.Format("2006-01-02")` (`DATE_FORMAT`, src/lib.go
line 19). -/
def Date.Format (d : Date) : String :=
  padZeros 4 d.year ++ "-" ++ padZeros 2 d.month ++ "-" ++ padZeros 2 d.day

/-- Struct `DatedRequest` (src/lib.go lines 87-90). -/
structure DatedRequest where
  Start : Date
  End : Date
deriving DecidableEq

/-- Method `DatedRequest.MergeParams` (src/lib.go lines 98-105). -/
def DatedRequest.MergeParams (r : DatedRequest) (v : Params) : Params :=
  let v1 := if r.Start.IsZero then v else v.set "realtime_start" r.Start.Format
  if r.End.IsZero then v1 else v1.set "realtime_end" r.End.Format

/-- Method `DatedRequest.ToParams` (src/lib.go lines 92-96). -/
def DatedRequest.ToParams (r : DatedRequest) : Params :=
  r.MergeParams Params.empty

/-- Struct `PagedRequest` (src/lib.go lines 108-111); Go `uint` modelled as
the natural number it stores. -/
structure PagedRequest where
  Limit : Nat
  Offset : Nat
deriving DecidableEq

/-- Method `PagedRequest.MergeParams` (src/lib.go lines 119-130): `adj` is
`Limit % 1000` with a residue of 0 replaced by 1. -/
def PagedRequest.MergeParams (r : PagedRequest) (v : Params) : Params :=
  let v1 :=
    if r.Limit > 0 then
      v.set "limit" (toString (if r.Limit % 1000 = 0 then 1 else r.Limit % 1000))
    else v
  if r.Offset > 0 then v1.set "offset" (toString (r.Offset % 999)) else v1

/-- Method `PagedRequest.ToParams` (src/lib.go lines 113-117). -/
def PagedRequest.ToParams (r : PagedRequest) : Params :=
  r.MergeParams Params.empty

/-- Type `OrderType` (src/lib.go line 512), a string type. -/
abbrev OrderType := String

/-- Type `SortType` (src/lib.go line 545), a string type. -/
abbrev SortType := String

/-- Struct `OrderedRequest` (src/lib.go lines 133-136). -/
structure OrderedRequest where
  Order : OrderType
  Sort' : SortType
deriving DecidableEq

/-- Method `OrderedRequest.MergeParams` (src/lib.go lines 144-151). -/
def OrderedRequest.MergeParams (r : OrderedRequest) (v : Params) : Params :=
  let v1 := if r.Order.length > 0 then v.set "order_by" r.Order else v
  if r.Sort'.length > 0 then v1.set "sort_order" r.Sort' else v1

/-- Type `FilterType` (src/lib.go line 533), a string type. -/
abbrev FilterType := String

/-- Struct `FilteredRequest` (src/lib.go lines 154-157). -/
structure FilteredRequest where
  Variable : FilterType
  Value : String
deriving DecidableEq

/-- Method `FilteredRequest.MergeParams` (src/lib.go lines 165-172). -/
def FilteredRequest.MergeParams (r : FilteredRequest) (v : Params) : Params :=
  let v1 := if r.Variable.length > 0 then v.set "filter_variable" r.Variable else v
  if r.Value.length > 0 then v1.set "filter_value" r.Value else v1

/-- Struct `TaggedRequest` (src/lib.go lines 175-178). -/
structure TaggedRequest where
  Tags : List String
  Exclude : List String
deriving DecidableEq

/-- Method `TaggedRequest.MergeParams` (src/lib.go lines 186-193); Go's
`strings.Join(xs, ";")` is `String.intercalate ";" xs`. -/
def TaggedRequest.MergeParams (r : TaggedRequest) (v : Params) : Params :=
  let v1 :=
    if r.Tags.length > 0 then v.set "tag_names" (String.intercalate ";" r.Tags) else v
  if r.Exclude.length > 0 then
    v1.set "exclude_tag_name" (String.intercalate ";" r.Exclude)
  else v1

/-- Enum `Frequency` (src/lib.go lines 299-321), the 16 reporting cadences
plus the `UnknownFrequency` sentinel. -/
inductive Frequency
  | Daily
  | Weekly
  | Biweekly
  | Monthly
  | Quarterly
  | Semiannual
  | Annual
  | WeeklyEndingFriday
  | WeeklyEndingThursday
  | WeeklyEndingWednesday
  | WeeklyEndingTuesday
  | WeeklyEndingMonday
  | WeeklyEndingSunday
  | WeeklyEndingSaturday
  | BiweeklyEndingWednesday
  | BiweeklyEndingMonday
  | UnknownFrequency
deriving DecidableEq

/-- Function `FrequencyFromString` (src/lib.go lines 323-366). Go returns a
`(Frequency, error)` pair; the error is modelled as `Option String`
carrying its message, `none` meaning the Go `nil` error. -/
def FrequencyFromString (str : String) : Frequency × Option String :=
  match str with
  | "d" | "Daily" | "Daily, 7-Day" | "Daily, Close" => (.Daily, none)
  | "w" | "Weekly" => (.Weekly, none)
  | "bw" | "Biweekly" => (.Biweekly, none)
  | "m" | "Monthly" | "Monthly, End of Month" => (.Monthly, none)
  | "q" | "Quarterly" | "Quarterly, End of Quarter" | "Quarterly, End of Period" =>
      (.Quarterly, none)
  | "sa" | "Semiannual" => (.Semiannual, none)
  | "a" | "Annual" | "Annual, Fiscal Year" | "Annual, As of February"
  | "Annual, End of Year" => (.Annual, none)
  | "wef" | "Weekly, Ending Friday" => (.WeeklyEndingFriday, none)
  | "weth" | "Weekly, Ending Thursday" => (.WeeklyEndingThursday, none)
  | "wew" | "Weekly, Ending Wednesday" => (.WeeklyEndingWednesday, none)
  | "wetu" | "Weekly, Ending Tuesday" => (.WeeklyEndingTuesday, none)
  | "wem" | "Weekly, Ending Monday" => (.WeeklyEndingMonday, none)
  | "wesu" | "Weekly, Ending Sunday" => (.WeeklyEndingSunday, none)
  | "wesa" | "Weekly, Ending Saturday" => (.WeeklyEndingSaturday, none)
  | "bwew" | "Biweekly, Ending Wednesday" => (.BiweeklyEndingWednesday, none)
  | "bwem" | "Biweekly, Ending Monday" => (.BiweeklyEndingMonday, none)
  | "Not Applicable" => (.UnknownFrequency, none)
  | _ => (.UnknownFrequency, some ("unknown frequency format: " ++ str))

/-- Method `Frequency.UnmarshalJSON` (src/lib.go lines 368-379) after the
enclosing JSON string has been decoded to `as_str`: the receiver is set to
the parsed value (sentinel on failure) and the error is returned alongside,
exactly the `FrequencyFromString` pair. -/
def Frequency.UnmarshalJSON (as_str : String) : Frequency × Option String :=
  FrequencyFromString as_str

/-- Method `Frequency.UnmarshalXMLAttr` (src/lib.go lines 385-389): also
the `FrequencyFromString` pair, on the attribute value. -/
def Frequency.UnmarshalXMLAttr (value : String) : Frequency × Option String :=
  FrequencyFromString value

/-- Type `TagId` (src/lib.go line 553), a string type. -/
abbrev TagId := String

/-- Constant `TagNone` (src/lib.go line 556). -/
def TagNone : TagId := ""

/-- Constant `TagFrequency` (src/lib.go line 557). -/
def TagFrequency : TagId := "Frequency"

/-- Constant `TagGeneral` (src/lib.go line 558). -/
def TagGeneral : TagId := "General or Concept"

/-- Constant `TagGeography` (src/lib.go line 559). -/
def TagGeography : TagId := "Geography"

/-- Constant `TagGeographyType` (src/lib.go line 560). -/
def TagGeographyType : TagId := "Geography Type"

/-- Constant `TagRelease` (src/lib.go line 561). -/
def TagRelease : TagId := "Release"

/-- Constant `TagSeasonalAdjustment` (src/lib.go line 562). -/
def TagSeasonalAdjustment : TagId := "Seasonal Adjustment"

/-- Constant `TagSource` (src/lib.go line 563). -/
def TagSource : TagId := "Source"

/-- Function `TagIdFromString` (src/lib.go lines 566-585). -/
def TagIdFromString (str : String) : TagId :=
  match str with
  | "freq" => TagFrequency
  | "gen" => TagGeneral
  | "geo" => TagGeography
  | "geot" => TagGeographyType
  | "rls" => TagRelease
  | "seas" => TagSeasonalAdjustment
  | "src" => TagSource
  | _ => TagNone

/-- Method `TagId.UnmarshalJSON` (src/lib.go lines 587-599) after the
enclosing JSON string has been decoded to `as_str`: the receiver is set to
`TagIdFromString as_str` and an error is returned exactly when that value
is the `TagNone` sentinel. -/
def TagId.UnmarshalJSON (as_str : String) : TagId × Option String :=
  let t := TagIdFromString as_str
  (t, if t = TagNone then some ("unknown tag id '" ++ as_str ++ "'") else none)

/-- Method `TagId.UnmarshalXMLAttr` (src/lib.go lines 601-604): sets the
receiver to `TagIdFromString attr.Value` and always returns a `nil` error. -/
def TagId.UnmarshalXMLAttr (value : String) : TagId × Option String :=
  (TagIdFromString value, none)

/-- Decode failures of `DataPoint.UnmarshalJSON`, one constructor per
`return`-with-error site in src/lib.go lines 475-509. -/
inductive DataPointError
  | noDate
  | noValue
  | badDate
  | badValue
deriving DecidableEq

/-- Struct `DataPoint` (src/lib.go lines 469-473), generic over the carrier
of the 64-bit float `Value` field so that no floating-point reasoning is
needed: the claims about this codec are purely control-flow claims. -/
structure DataPoint (FV : Type) where
  Date : Date
  Value : FV
  Valid : Bool
deriving DecidableEq

/-- Method `DataPoint.UnmarshalJSON` (src/lib.go lines 475-509) after the
body has been decoded to a string-to-string map (modelled as an association
list). The standard-library parsers `time.Parse(DATE_FORMAT, ·)` and
`strconv.ParseFloat(·, 64)` are passed in as `parseDate` and `parseValue`
(`none` = parse error), and `fv0` is the zero value of the float carrier.
The receiver starts as the zero `DataPoint` with `Valid` set to `false`. -/
def DataPoint.UnmarshalJSON (parseDate : String → Option Gofred.Date)
    (parseValue : String → Option FV) (fv0 : FV)
    (as_map : List (String × String)) : Except DataPointError (DataPoint FV) :=
  match as_map.lookup "date" with
  | none => .error .noDate
  | some date =>
    match as_map.lookup "value" with
    | none => .error .noValue
    | some value =>
      if value = "." then .ok ⟨Date.zeroValue, fv0, false⟩
      else
        match parseDate date with
        | none => .error .badDate
        | some d =>
          match parseValue value with
          | none => .error .badValue
          | some v => .ok ⟨d, v, true⟩

/-- Enum `ErrorType` (src/lib.go lines 723-734). -/
inductive ErrorType
  | ParseError
  | HTTPError
  | ReadError
  | UnexpectedCount
  | UnknownResponseFormat
  | NotFound
  | Invalid
  | UnknownError
deriving DecidableEq

/-- Numeric codes of the `ErrorType` constants (src/lib.go lines 725-733). -/
def ErrorType.code : ErrorType → Nat
  | .ParseError => 0
  | .HTTPError => 1
  | .ReadError => 2
  | .UnexpectedCount => 3
  | .UnknownResponseFormat => 4
  | .NotFound => 404
  | .Invalid => 400
  | .UnknownError => 999

/-- Struct `APIError` (src/lib.go lines 743-746). -/
structure APIError where
  ty : ErrorType
  msg : String
deriving DecidableEq

/-- Struct `baseError` (src/lib.go lines 762-765), the generic error
envelope `{error_message, error_code}`. -/
structure BaseError where
  Message : String
  Code : Nat
deriving DecidableEq

/-- Method `Client.get` (src/lib.go lines 862-916) after the HTTP fetch and
body read have succeeded with the given `status` and `body`. The parameter
`envelope` is the result of `c.get_error(body)` for the client's format:
`some e` when the error envelope decodes to `e` and `none` when decoding
fails (in which case the Go code returns the shared `failed_to_parse` value,
whose message interpolates the `nil` error left over from `ReadAll` as
`<nil>`). -/
def ClientGet (desc : String) (status : Nat) (body : String)
    (envelope : Option BaseError) : Except APIError String :=
  let failed_to_parse : APIError :=
    ⟨.ParseError, "failed to parse " ++ desc ++ " error response: <nil>"⟩
  if status = 200 then .ok body
  else if status = 404 then
    .error ⟨.NotFound, "could not find " ++ desc ++ ": " ++ toString status⟩
  else if status = 400 then
    match envelope with
    | none => .error failed_to_parse
    | some req_err =>
      .error ⟨.Invalid, "invalid " ++ desc ++ " request: " ++ req_err.Message⟩
  else
    match envelope with
    | none => .error failed_to_parse
    | some req_err =>
      .error ⟨.UnknownError,
        "could not get " ++ desc ++ " (" ++ toString req_err.Code ++ "): "
          ++ req_err.Message⟩

/-- Constant `API_URL` (src/lib.go line 17). -/
def API_URL : String := "https://api.stlouisfed.org/fred"

/-- Struct `Client` (src/lib.go lines 775-778); the parsed base URL is kept
as its source string. -/
structure Client where
  base_req : BaseRequest
  base_url : String
deriving DecidableEq

/-- Function `NewClient` (src/lib.go lines 781-798). Go's `len(key)` counts
bytes, hence `utf8ByteSize`; `url.Parse` of the constant `API_URL` always
succeeds, so that error branch is vacuous and elided. -/
def NewClient (key : String) (format : ResponseFormat) : Except String Client :=
  if key.utf8ByteSize ≠ 32 then .error "api key is invalid length"
  else .ok ⟨⟨format, key⟩, API_URL⟩

/-- Struct `Category` (src/category.go lines 202-206). -/
structure Category where
  Id : Nat
  Name : String
  ParentId : Nat
deriving DecidableEq

/-- Struct `categoryResponse` (src/category.go lines 228-230). -/
structure CategoryResponse where
  Categories : List Category
deriving DecidableEq

/-- The entity-count check of `Client.Category` (src/category.go lines
260-274): the `switch len(result.Categories)` performed after a successful
fetch and decode. -/
def ClientCategoryUnwrap (result : CategoryResponse) : Except APIError Category :=
  match result.Categories with
  | [] => .error ⟨.UnexpectedCount, "received an empty category list"⟩
  | [c] => .ok c
  | cs =>
    .error ⟨.UnexpectedCount,
      "expected only a single category, received " ++ toString cs.length⟩

/-- Timestamp with a UTC offset, the value decoded by the `DateTime` codec
(src/lib.go lines 276-297); carried opaquely by `Series`. -/
structure DateTime where
  year : Nat
  month : Nat
  day : Nat
  hour : Nat
  minute : Nat
  second : Nat
  tzHours : Int
deriving DecidableEq

/-- Struct `Series` (src/unnamed/part_000 lines 8-22); `SeasonalAdjustment`
is a bool type in the source. -/
structure Series where
  Id : String
  Start : Date
  End : Date
  Title : String
  ObservationStart : Date
  ObservationEnd : Date
  Frequency : Frequency
  Units : String
  UnitsShort : String
  SeasonallyAdjusted : Bool
  LastUpdate : DateTime
  Popularity : Nat
  Notes : String
deriving DecidableEq

/-- Struct `seriesResponse` (src/unnamed/part_000 lines 52-56). -/
structure SeriesResponse where
  Start : Date
  End : Date
  Series : List Series
deriving DecidableEq

/-- The entity-count check of `Client.Series` (src/unnamed/part_000 lines
83-97): the `switch len(result.Series)` performed after a successful fetch
and decode. -/
def ClientSeriesUnwrap (result : SeriesResponse) : Except APIError Series :=
  match result.Series with
  | [] => .error ⟨.UnexpectedCount, "received an empty series list"⟩
  | [s] => .ok s
  | ss =>
    .error ⟨.UnexpectedCount,
      "expected only a single series, received " ++ toString ss.length⟩

/-- The seven short tag-group codes and the enumerated `TagId` value each
one decodes to (the `case` arms of src/lib.go lines 566-585). -/
def tagShortCodes : List (String × TagId) :=
  [("freq", TagFrequency), ("gen", TagGeneral), ("geo", TagGeography),
   ("geot", TagGeographyType), ("rls", TagRelease),
   ("seas", TagSeasonalAdjustment), ("src", TagSource)]

/-- Every short code and documented long-form synonym of the 16 real
cadences, with the cadence it decodes to (the `case` arms of src/lib.go
lines 323-366, excluding the `"Not Applicable"` arm). -/
def frequencySynonyms : List (String × Frequency) :=
  [("d", .Daily), ("Daily", .Daily), ("Daily, 7-Day", .Daily),
   ("Daily, Close", .Daily),
   ("w", .Weekly), ("Weekly", .Weekly),
   ("bw", .Biweekly), ("Biweekly", .Biweekly),
   ("m", .Monthly), ("Monthly", .Monthly), ("Monthly, End of Month", .Monthly),
   ("q", .Quarterly), ("Quarterly", .Quarterly),
   ("Quarterly, End of Quarter", .Quarterly),
   ("Quarterly, End of Period", .Quarterly),
   ("sa", .Semiannual), ("Semiannual", .Semiannual),
   ("a", .Annual), ("Annual", .Annual), ("Annual, Fiscal Year", .Annual),
   ("Annual, As of February", .Annual), ("Annual, End of Year", .Annual),
   ("wef", .WeeklyEndingFriday), ("Weekly, Ending Friday", .WeeklyEndingFriday),
   ("weth", .WeeklyEndingThursday),
   ("Weekly, Ending Thursday", .WeeklyEndingThursday),
   ("wew", .WeeklyEndingWednesday),
   ("Weekly, Ending Wednesday", .WeeklyEndingWednesday),
   ("wetu", .WeeklyEndingTuesday),
   ("Weekly, Ending Tuesday", .WeeklyEndingTuesday),
   ("wem", .WeeklyEndingMonday), ("Weekly, Ending Monday", .WeeklyEndingMonday),
   ("wesu", .WeeklyEndingSunday), ("Weekly, Ending Sunday", .WeeklyEndingSunday),
   ("wesa", .WeeklyEndingSaturday),
   ("Weekly, Ending Saturday", .WeeklyEndingSaturday),
   ("bwew", .BiweeklyEndingWednesday),
   ("Biweekly, Ending Wednesday", .BiweeklyEndingWednesday),
   ("bwem", .BiweeklyEndingMonday),
   ("Biweekly, Ending Monday", .BiweeklyEndingMonday)]

/-!
Helper lemmas about `Params.set`, shared by the fragment theorems.
-/

theorem Params.set_self (v : Params) (k val : String) : v.set k val k = some val := by
  simp [Params.set]

theorem Params.set_other (v : Params) (k val q : String) (h : q ≠ k) :
    v.set k val q = v q := by
  simp [Params.set, h]

theorem Params.set_idem (v : Params) (a x : String) :
    (v.set a x).set a x = v.set a x := by
  funext q
  by_cases h : q = a <;> simp [Params.set, h]

theorem Params.set_set_idem (v : Params) (a x b y : String) :
    (((v.set a x).set b y).set a x).set b y = (v.set a x).set b y := by
  funext q
  by_cases hb : q = b <;> by_cases ha : q = a <;> simp [Params.set, ha, hb]

/-- C9: stringifying the credentials through `ApiKey.String` yields the
fixed string "REDACTED", independent of the token's contents, so any two
tokens stringify identically and no part of the token is revealed. -/
theorem apikey_redaction_spec (k1 k2 : ApiKey) :
    ApiKey.string k1 = "REDACTED" ∧ ApiKey.string k1 = ApiKey.string k2 :=
  ⟨rfl, rfl⟩

/-- C8: in the parameter set built by `DatedRequest`, the `realtime_start`
key is present exactly when `Start` is a non-zero date and the
`realtime_end` key exactly when `End` is, each formatted as `YYYY-MM-DD`
by `Date.Format`. -/
theorem dated_request_params_spec (r : DatedRequest) :
    r.ToParams "realtime_start"
      = (if r.Start.IsZero then none else some r.Start.Format) ∧
    r.ToParams "realtime_end"
      = (if r.End.IsZero then none else some r.End.Format) := by
  unfold DatedRequest.ToParams DatedRequest.MergeParams
  by_cases hs : r.Start.IsZero = true <;> by_cases he : r.End.IsZero = true <;>
    simp [hs, he, Params.set, Params.empty]

/-- C2: in the parameter set built by `PagedRequest`, `limit` is absent
when `Limit = 0` and otherwise carries `Limit % 1000` with a residue of 0
mapped to 1 (always in `[1, 1000]`); `offset` is absent when `Offset = 0`
and otherwise carries `Offset % 999` (always in `[0, 998]`). -/
theorem paged_request_params_spec (r : PagedRequest) :
    (r.Limit = 0 → r.ToParams "limit" = none) ∧
    (r.Offset = 0 → r.ToParams "offset" = none) ∧
    (r.Limit ≠ 0 →
      r.ToParams "limit"
        = some (toString (if r.Limit % 1000 = 0 then 1 else r.Limit % 1000)) ∧
      1 ≤ (if r.Limit % 1000 = 0 then 1 else r.Limit % 1000) ∧
      (if r.Limit % 1000 = 0 then 1 else r.Limit % 1000) ≤ 1000) ∧
    (r.Offset ≠ 0 →
      r.ToParams "offset" = some (toString (r.Offset % 999)) ∧
      r.Offset % 999 ≤ 998) := by
  unfold PagedRequest.ToParams PagedRequest.MergeParams
  refine ⟨?_, ?_, ?_, ?_⟩
  · intro h
    by_cases ho : r.Offset > 0 <;> simp [h, ho, Params.set, Params.empty]
  · intro h
    by_cases hl : r.Limit > 0 <;> simp [h, hl, Params.set, Params.empty]
  · intro h
    have hl : r.Limit > 0 := Nat.pos_of_ne_zero h
    refine ⟨?_, ?_, ?_⟩
    · by_cases ho : r.Offset > 0 <;> simp [hl, ho, Params.set, Params.empty]
    · split_ifs <;> omega
    · split_ifs <;> omega
  · intro h
    have ho : r.Offset > 0 := Nat.pos_of_ne_zero h
    constructor
    · by_cases hl : r.Limit > 0 <;> simp [hl, ho, Params.set, Params.empty]
    · omega

/-- C2 witness: the paged-request theorem instantiated at the spec's
end-to-end examples, `Limit = 1500` encoding as `limit=500`, `Limit = 1000`
encoding as `limit=1` (the legacy zero-wrap quirk), and the zero values
omitting their keys. -/
theorem paged_request_params_spec_witness :
    PagedRequest.ToParams ⟨1500, 5⟩ "limit" = some "500" ∧
    PagedRequest.ToParams ⟨1000, 5⟩ "limit" = some "1" ∧
    PagedRequest.ToParams ⟨0, 5⟩ "limit" = none ∧
    PagedRequest.ToParams ⟨5, 0⟩ "offset" = none ∧
    PagedRequest.ToParams ⟨5, 1500⟩ "offset" = some "501" ∧ 501 ≤ 998 := by
  refine ⟨?_, ?_, ?_, ?_, ?_, ?_⟩
  · exact (((paged_request_params_spec ⟨1500, 5⟩).2.2.1 (by decide)).1).trans (by decide)
  · exact (((paged_request_params_spec ⟨1000, 5⟩).2.2.1 (by decide)).1).trans (by decide)
  · exact (paged_request_params_spec ⟨0, 5⟩).1 rfl
  · exact ((paged_request_params_spec ⟨5, 0⟩).2.1) rfl
  · exact (((paged_request_params_spec ⟨5, 1500⟩).2.2.2 (by decide)).1).trans (by decide)
  · exact ((paged_request_params_spec ⟨5, 1500⟩).2.2.2 (by decide)).2.trans_eq (by decide)

/-- C7: each parameter fragment's `MergeParams` is idempotent (applying it
twice gives the same parameter set as applying it once) and additive (every
key the fragment does not own is left unchanged), for the date-range,
paging, ordering, free-text filter and tagging fragments. -/
theorem merge_params_idempotent_additive (d : DatedRequest) (p : PagedRequest)
    (o : OrderedRequest) (f : FilteredRequest) (t : TaggedRequest)
    (v : Params) (k : String) :
    d.MergeParams (d.MergeParams v) = d.MergeParams v ∧
    p.MergeParams (p.MergeParams v) = p.MergeParams v ∧
    o.MergeParams (o.MergeParams v) = o.MergeParams v ∧
    f.MergeParams (f.MergeParams v) = f.MergeParams v ∧
    t.MergeParams (t.MergeParams v) = t.MergeParams v ∧
    (k ≠ "realtime_start" → k ≠ "realtime_end" → d.MergeParams v k = v k) ∧
    (k ≠ "limit" → k ≠ "offset" → p.MergeParams v k = v k) ∧
    (k ≠ "order_by" → k ≠ "sort_order" → o.MergeParams v k = v k) ∧
    (k ≠ "filter_variable" → k ≠ "filter_value" → f.MergeParams v k = v k) ∧
    (k ≠ "tag_names" → k ≠ "exclude_tag_name" → t.MergeParams v k = v k) := by
  refine ⟨?_, ?_, ?_, ?_, ?_, ?_, ?_, ?_, ?_, ?_⟩
  · unfold DatedRequest.MergeParams
    by_cases h1 : d.Start.IsZero = true <;> by_cases h2 : d.End.IsZero = true <;>
      simp [h1, h2, Params.set_idem, Params.set_set_idem]
  · unfold PagedRequest.MergeParams
    by_cases h1 : p.Limit > 0 <;> by_cases h2 : p.Offset > 0 <;>
      simp [h1, h2, Params.set_idem, Params.set_set_idem]
  · unfold OrderedRequest.MergeParams
    by_cases h1 : o.Order.length > 0 <;> by_cases h2 : o.Sort'.length > 0 <;>
      simp [h1, h2, Params.set_idem, Params.set_set_idem]
  · unfold FilteredRequest.MergeParams
    by_cases h1 : f.Variable.length > 0 <;> by_cases h2 : f.Value.length > 0 <;>
      simp [h1, h2, Params.set_idem, Params.set_set_idem]
  · unfold TaggedRequest.MergeParams
    by_cases h1 : t.Tags.length > 0 <;> by_cases h2 : t.Exclude.length > 0 <;>
      simp [h1, h2, Params.set_idem, Params.set_set_idem]
  · intro h1 h2
    unfold DatedRequest.MergeParams
    by_cases c1 : d.Start.IsZero = true <;> by_cases c2 : d.End.IsZero = true <;>
      simp [c1, c2, Params.set, h1, h2]
  · intro h1 h2
    unfold PagedRequest.MergeParams
    by_cases c1 : p.Limit > 0 <;> by_cases c2 : p.Offset > 0 <;>
      simp [c1, c2, Params.set, h1, h2]
  · intro h1 h2
    unfold OrderedRequest.MergeParams
    by_cases c1 : o.Order.length > 0 <;> by_cases c2 : o.Sort'.length > 0 <;>
      simp [c1, c2, Params.set, h1, h2]
  · intro h1 h2
    unfold FilteredRequest.MergeParams
    by_cases c1 : f.Variable.length > 0 <;> by_cases c2 : f.Value.length > 0 <;>
      simp [c1, c2, Params.set, h1, h2]
  · intro h1 h2
    unfold TaggedRequest.MergeParams
    by_cases c1 : t.Tags.length > 0 <;> by_cases c2 : t.Exclude.length > 0 <;>
      simp [c1, c2, Params.set, h1, h2]

/-- C7 witness: idempotence and key-preservation instantiated at concrete
fragments, a concrete parameter set, and foreign keys. -/
theorem merge_params_idempotent_additive_witness :
    PagedRequest.MergeParams ⟨7, 9⟩ (PagedRequest.MergeParams ⟨7, 9⟩ Params.empty)
      = PagedRequest.MergeParams ⟨7, 9⟩ Params.empty ∧
    TaggedRequest.MergeParams ⟨["a"], []⟩
        (TaggedRequest.MergeParams ⟨["a"], []⟩ Params.empty)
      = TaggedRequest.MergeParams ⟨["a"], []⟩ Params.empty ∧
    PagedRequest.MergeParams ⟨7, 9⟩ Params.empty "api_key" = Params.empty "api_key" ∧
    DatedRequest.MergeParams ⟨⟨2020, 1, 2⟩, ⟨1, 1, 1⟩⟩ Params.empty "limit"
      = Params.empty "limit" := by
  have h := merge_params_idempotent_additive ⟨⟨2020, 1, 2⟩, ⟨1, 1, 1⟩⟩ ⟨7, 9⟩
    ⟨"", ""⟩ ⟨"", ""⟩ ⟨["a"], []⟩ Params.empty "api_key"
  have h2 := merge_params_idempotent_additive ⟨⟨2020, 1, 2⟩, ⟨1, 1, 1⟩⟩ ⟨7, 9⟩
    ⟨"", ""⟩ ⟨"", ""⟩ ⟨["a"], []⟩ Params.empty "limit"
  exact ⟨h.2.1, h.2.2.2.2.1, h.2.2.2.2.2.2.1 (by decide) (by decide),
    h2.2.2.2.2.2.1 (by decide) (by decide)⟩

/-- C10: `NewClient` returns an error exactly when the key is not 32 bytes
long; on success the returned client stores the key and format unchanged,
so the base parameter set of every request it builds carries `api_key`
equal to the given key and `file_type` equal to the format's wire string. -/
theorem newclient_spec (key : String) (format : ResponseFormat) :
    ((∃ c, NewClient key format = .ok c) ↔ key.utf8ByteSize = 32) ∧
    (key.utf8ByteSize ≠ 32 →
      NewClient key format = .error "api key is invalid length") ∧
    (∀ c, NewClient key format = .ok c →
      c.base_req.api_key = key ∧ c.base_req.fmt = format ∧
      c.base_req.ToParams "api_key" = some key ∧
      c.base_req.ToParams "file_type" = some format.string) := by
  by_cases h : key.utf8ByteSize = 32
  · refine ⟨⟨fun _ => h,
      fun _ => ⟨⟨⟨format, key⟩, API_URL⟩, by simp [NewClient, h]⟩⟩,
      fun hn => absurd h hn, ?_⟩
    intro c hc
    have : c = ⟨⟨format, key⟩, API_URL⟩ := by
      simpa [NewClient, h] using hc.symm
    subst this
    refine ⟨rfl, rfl, ?_, ?_⟩ <;>
      simp [BaseRequest.ToParams, BaseRequest.MergeParams, Params.set, Params.empty]
  · refine ⟨⟨?_, fun h32 => absurd h32 h⟩, fun _ => by simp [NewClient, h], ?_⟩
    · rintro ⟨c, hc⟩
      simp [NewClient, h] at hc
    · intro c hc
      simp [NewClient, h] at hc

/-- C10 witness: a 32-byte key yields a client whose base parameter set
carries that key and the `json` wire string, and a short key is rejected. -/
theorem newclient_spec_witness :
    (∃ c, NewClient "abcdefghijklmnopqrstuvwxyz012345" ResponseFormat.JSON
        = Except.ok c) ∧
    BaseRequest.ToParams ⟨ResponseFormat.JSON, "abcdefghijklmnopqrstuvwxyz012345"⟩
        "api_key" = some "abcdefghijklmnopqrstuvwxyz012345" ∧
    BaseRequest.ToParams ⟨ResponseFormat.JSON, "abcdefghijklmnopqrstuvwxyz012345"⟩
        "file_type" = some "json" ∧
    NewClient "short" ResponseFormat.JSON
      = Except.error "api key is invalid length" := by
  have h := newclient_spec "abcdefghijklmnopqrstuvwxyz012345" ResponseFormat.JSON
  have hc := h.2.2 ⟨⟨ResponseFormat.JSON, "abcdefghijklmnopqrstuvwxyz012345"⟩, API_URL⟩
    (by rfl)
  exact ⟨h.1.mpr (by decide), hc.2.2.1, hc.2.2.2,
    (newclient_spec "short" ResponseFormat.JSON).2.1 (by decide)⟩

/-- C1 (amended): in `Client.get`, status 200 returns the body unchanged;
status 404 synthesizes a `NotFound` error from the status alone, never
consulting the decoded envelope; status 400 returns an `Invalid` error
carrying the envelope's `error_message` when the envelope decodes, and the
shared `ParseError`-typed failure when it does not; any other status
returns an `UnknownError` carrying the envelope's code and message when the
envelope decodes, and the `ParseError`-typed failure otherwise. -/
theorem client_get_spec (desc body : String) (env : Option BaseError) (status : Nat) :
    ClientGet desc 200 body env = .ok body ∧
    ClientGet desc 404 body env
      = .error ⟨.NotFound, "could not find " ++ desc ++ ": " ++ toString 404⟩ ∧
    (∀ e, env = some e →
      ClientGet desc 400 body env
        = .error ⟨.Invalid, "invalid " ++ desc ++ " request: " ++ e.Message⟩) ∧
    (env = none → status ≠ 200 → status ≠ 404 →
      ClientGet desc status body env
        = .error ⟨.ParseError,
            "failed to parse " ++ desc ++ " error response: <nil>"⟩) ∧
    (∀ e, env = some e → status ≠ 200 → status ≠ 400 → status ≠ 404 →
      ClientGet desc status body env
        = .error ⟨.UnknownError,
            "could not get " ++ desc ++ " (" ++ toString e.Code ++ "): "
              ++ e.Message⟩) := by
  refine ⟨by simp [ClientGet], by simp [ClientGet], ?_, ?_, ?_⟩
  · rintro e rfl
    simp [ClientGet]
  · rintro rfl h200 h404
    by_cases h400 : status = 400 <;> simp [ClientGet, h200, h400, h404]
  · rintro e rfl h200 h400 h404
    simp [ClientGet, h200, h400, h404]

/-- C1 counterexample: a status-400 response whose error envelope cannot be
decoded does not produce an `Invalid`-typed error as the claim states; the
code returns the `ParseError`-typed `failed_to_parse` value instead. -/
theorem client_get_spec_counterexample :
    ClientGet "series" 400 "garbage" none
      = .error ⟨.ParseError, "failed to parse series error response: <nil>"⟩ ∧
    ErrorType.ParseError ≠ ErrorType.Invalid := by
  refine ⟨?_, by decide⟩
  simp [ClientGet]

/-- C1 witness: the status dispatch exercised at concrete inputs, one per
branch. -/
theorem client_get_spec_witness :
    ClientGet "series" 200 "body" (some ⟨"m", 7⟩) = .ok "body" ∧
    ClientGet "series" 404 "body" (some ⟨"m", 7⟩)
      = .error ⟨.NotFound, "could not find " ++ "series" ++ ": " ++ toString 404⟩ ∧
    ClientGet "series" 400 "body" (some ⟨"m", 7⟩)
      = .error ⟨.Invalid, "invalid " ++ "series" ++ " request: "
          ++ BaseError.Message ⟨"m", 7⟩⟩ ∧
    ClientGet "series" 500 "body" none
      = .error ⟨.ParseError,
          "failed to parse " ++ "series" ++ " error response: <nil>"⟩ ∧
    ClientGet "series" 500 "body" (some ⟨"m", 7⟩)
      = .error ⟨.UnknownError, "could not get " ++ "series" ++ " ("
          ++ toString (BaseError.Code ⟨"m", 7⟩) ++ "): "
          ++ BaseError.Message ⟨"m", 7⟩⟩ := by
  have h200 := (client_get_spec "series" "body" (some ⟨"m", 7⟩) 500).1
  have h404 := (client_get_spec "series" "body" (some ⟨"m", 7⟩) 500).2.1
  have h400 := (client_get_spec "series" "body" (some ⟨"m", 7⟩) 500).2.2.1 ⟨"m", 7⟩ rfl
  have hparse := (client_get_spec "series" "body" none 500).2.2.2.1 rfl
    (by decide) (by decide)
  have hunk := (client_get_spec "series" "body" (some ⟨"m", 7⟩) 500).2.2.2.2 ⟨"m", 7⟩
    rfl (by decide) (by decide) (by decide)
  exact ⟨h200, h404, h400, hparse, hunk⟩

/-- C3: the singular-endpoint unwrap performed by `Client.Category` and
`Client.Series` after a successful decode: an empty entity collection
yields an `UnexpectedCount` error mentioning an empty list, two or more
entities yield an `UnexpectedCount` error reporting the received count, and
exactly one entity is returned with no error. -/
theorem singular_unwrap_spec (cr : CategoryResponse) (sr : SeriesResponse) :
    (cr.Categories = [] → ClientCategoryUnwrap cr
      = .error ⟨.UnexpectedCount, "received an empty category list"⟩) ∧
    (∀ c, cr.Categories = [c] → ClientCategoryUnwrap cr = .ok c) ∧
    (2 ≤ cr.Categories.length → ClientCategoryUnwrap cr
      = .error ⟨.UnexpectedCount,
          "expected only a single category, received "
            ++ toString cr.Categories.length⟩) ∧
    (sr.Series = [] → ClientSeriesUnwrap sr
      = .error ⟨.UnexpectedCount, "received an empty series list"⟩) ∧
    (∀ s, sr.Series = [s] → ClientSeriesUnwrap sr = .ok s) ∧
    (2 ≤ sr.Series.length → ClientSeriesUnwrap sr
      = .error ⟨.UnexpectedCount,
          "expected only a single series, received "
            ++ toString sr.Series.length⟩) := by
  obtain ⟨cats⟩ := cr
  obtain ⟨s1, s2, ser⟩ := sr
  refine ⟨?_, ?_, ?_, ?_, ?_, ?_⟩
  · rintro rfl; rfl
  · rintro c rfl; rfl
  · intro h
    rcases cats with _ | ⟨a, _ | ⟨b, tl⟩⟩
    · simp at h
    · simp at h
    · rfl
  · rintro rfl; rfl
  · rintro s rfl; rfl
  · intro h
    rcases ser with _ | ⟨a, _ | ⟨b, tl⟩⟩
    · simp at h
    · simp at h
    · rfl

/-- C3 witness: the singular unwrap exercised on an empty collection, a
two-element collection, and a one-element collection. -/
theorem singular_unwrap_spec_witness :
    ClientCategoryUnwrap ⟨[]⟩
      = .error ⟨.UnexpectedCount, "received an empty category list"⟩ ∧
    ClientCategoryUnwrap ⟨[⟨1, "a", 0⟩, ⟨2, "b", 0⟩]⟩
      = .error ⟨.UnexpectedCount,
          "expected only a single category, received "
            ++ toString [Category.mk 1 "a" 0, Category.mk 2 "b" 0].length⟩ ∧
    ClientCategoryUnwrap ⟨[⟨1, "a", 0⟩]⟩ = .ok ⟨1, "a", 0⟩ ∧
    ClientSeriesUnwrap ⟨⟨1, 1, 1⟩, ⟨1, 1, 1⟩, []⟩
      = .error ⟨.UnexpectedCount, "received an empty series list"⟩ := by
  have h1 := (singular_unwrap_spec ⟨[]⟩ ⟨⟨1, 1, 1⟩, ⟨1, 1, 1⟩, []⟩).1 rfl
  have h2 := (singular_unwrap_spec ⟨[⟨1, "a", 0⟩, ⟨2, "b", 0⟩]⟩
    ⟨⟨1, 1, 1⟩, ⟨1, 1, 1⟩, []⟩).2.2.1 (by decide)
  have h3 := (singular_unwrap_spec ⟨[⟨1, "a", 0⟩]⟩
    ⟨⟨1, 1, 1⟩, ⟨1, 1, 1⟩, []⟩).2.1 ⟨1, "a", 0⟩ rfl
  have h4 := (singular_unwrap_spec ⟨[]⟩ ⟨⟨1, 1, 1⟩, ⟨1, 1, 1⟩, []⟩).2.2.2.1 rfl
  exact ⟨h1, h2, h3, h4⟩

/-- C4: decoding an observation record that carries both a date field and a
value field yields, when the value string is exactly ".", a record with
`Valid = false`, zero date and zero value and no error, for any date
string; otherwise the date is parsed with the `YYYY-MM-DD` codec and the
value as a 64-bit float, and a failure of either parse is a decode error
for that element. -/
theorem datapoint_unmarshal_spec {FV : Type} (parseDate : String → Option Date)
    (parseValue : String → Option FV) (fv0 : FV) (ds vs : String) :
    (vs = "." →
      DataPoint.UnmarshalJSON parseDate parseValue fv0 [("date", ds), ("value", vs)]
        = .ok ⟨Date.zeroValue, fv0, false⟩) ∧
    (vs ≠ "." → ∀ d v, parseDate ds = some d → parseValue vs = some v →
      DataPoint.UnmarshalJSON parseDate parseValue fv0 [("date", ds), ("value", vs)]
        = .ok ⟨d, v, true⟩) ∧
    (vs ≠ "." → parseDate ds = none →
      DataPoint.UnmarshalJSON parseDate parseValue fv0 [("date", ds), ("value", vs)]
        = .error .badDate) ∧
    (vs ≠ "." → ∀ d, parseDate ds = some d → parseValue vs = none →
      DataPoint.UnmarshalJSON parseDate parseValue fv0 [("date", ds), ("value", vs)]
        = .error .badValue) := by
  refine ⟨?_, ?_, ?_, ?_⟩
  · rintro rfl
    simp [DataPoint.UnmarshalJSON, List.lookup]
  · intro hne d v hd hv
    simp [DataPoint.UnmarshalJSON, List.lookup, hne, hd, hv]
  · intro hne hd
    simp [DataPoint.UnmarshalJSON, List.lookup, hne, hd]
  · intro hne d hd hv
    simp [DataPoint.UnmarshalJSON, List.lookup, hne, hd, hv]

/-- C4 witness: the observation codec exercised at a "." value paired with
an unparseable date string (no error, invalid record), at a fully parseable
record, and at each parse-failure site; the float carrier is instantiated
with `Nat`. -/
theorem datapoint_unmarshal_spec_witness :
    DataPoint.UnmarshalJSON (fun _ => none) (fun _ => (none : Option Nat)) 0
        [("date", "not-a-date"), ("value", ".")]
      = .ok ⟨Date.zeroValue, 0, false⟩ ∧
    DataPoint.UnmarshalJSON (fun _ => some ⟨2020, 1, 2⟩)
        (fun _ => some (35 : Nat)) 0 [("date", "2020-01-02"), ("value", "3.5")]
      = .ok ⟨⟨2020, 1, 2⟩, 35, true⟩ ∧
    DataPoint.UnmarshalJSON (fun _ => none) (fun _ => some (35 : Nat)) 0
        [("date", "bad"), ("value", "3.5")]
      = .error .badDate ∧
    DataPoint.UnmarshalJSON (fun _ => some ⟨2020, 1, 2⟩)
        (fun _ => (none : Option Nat)) 0 [("date", "2020-01-02"), ("value", "bad")]
      = .error .badValue := by
  have h1 := (datapoint_unmarshal_spec (fun _ => none)
    (fun _ => (none : Option Nat)) 0 "not-a-date" ".").1 rfl
  have h2 := (datapoint_unmarshal_spec (fun _ => some ⟨2020, 1, 2⟩)
    (fun _ => some (35 : Nat)) 0 "2020-01-02" "3.5").2.1 (by decide)
    ⟨2020, 1, 2⟩ 35 rfl rfl
  have h3 := (datapoint_unmarshal_spec (fun _ => none)
    (fun _ => some (35 : Nat)) 0 "bad" "3.5").2.2.1 (by decide) rfl
  have h4 := (datapoint_unmarshal_spec (fun _ => some ⟨2020, 1, 2⟩)
    (fun _ => (none : Option Nat)) 0 "2020-01-02" "bad").2.2.2 (by decide)
    ⟨2020, 1, 2⟩ rfl rfl
  exact ⟨h1, h2, h3, h4⟩

/-- C5 counterexample: decoding the unmapped tag-group string "bogus" from
an XML attribute yields the `TagNone` sentinel with a `nil` error — the XML
wire format reports no decode failure, contrary to the claim's "in either
wire format"; the JSON path does report one. -/
theorem tagid_decode_spec_counterexample :
    TagId.UnmarshalXMLAttr "bogus" = (TagNone, none) ∧
    TagId.UnmarshalJSON "bogus" = (TagNone, some "unknown tag id 'bogus'") := by
  constructor <;> rfl

/-- C5 (amended): each of the 7 short tag-group codes decodes, in either
wire format, to its enumerated value with no error; every other inbound
string decodes to the `TagNone` sentinel, which the JSON decoder reports as
a hard decode failure while the XML attribute decoder reports no error. -/
theorem tagid_decode_spec (s : String) :
    (∀ t, (s, t) ∈ tagShortCodes →
      TagId.UnmarshalJSON s = (t, none) ∧ TagId.UnmarshalXMLAttr s = (t, none)) ∧
    (s ∉ tagShortCodes.map Prod.fst →
      TagId.UnmarshalJSON s = (TagNone, some ("unknown tag id '" ++ s ++ "'")) ∧
      TagId.UnmarshalXMLAttr s = (TagNone, none)) := by
  constructor
  · intro t ht
    simp only [tagShortCodes, List.mem_cons, List.not_mem_nil, or_false,
      Prod.mk.injEq] at ht
    rcases ht with ⟨rfl, rfl⟩ | ⟨rfl, rfl⟩ | ⟨rfl, rfl⟩ | ⟨rfl, rfl⟩ |
      ⟨rfl, rfl⟩ | ⟨rfl, rfl⟩ | ⟨rfl, rfl⟩ <;> exact ⟨rfl, rfl⟩
  · intro hs
    simp only [tagShortCodes, List.map_cons, List.map_nil, List.mem_cons,
      List.not_mem_nil, or_false, not_or] at hs
    obtain ⟨h1, h2, h3, h4, h5, h6, h7⟩ := hs
    have hfall : TagIdFromString s = TagNone := by
      unfold TagIdFromString
      split <;> simp_all
    refine ⟨?_, ?_⟩
    · simp [TagId.UnmarshalJSON, hfall]
    · simp [TagId.UnmarshalXMLAttr, hfall]

/-- C5 witness: the tag-group codec exercised at the short code "geo" and
at the unmapped string "nope". -/
theorem tagid_decode_spec_witness :
    (TagId.UnmarshalJSON "geo" = (TagGeography, none) ∧
      TagId.UnmarshalXMLAttr "geo" = (TagGeography, none)) ∧
    (TagId.UnmarshalJSON "nope" = (TagNone, some ("unknown tag id '" ++ "nope" ++ "'")) ∧
      TagId.UnmarshalXMLAttr "nope" = (TagNone, none)) :=
  ⟨(tagid_decode_spec "geo").1 TagGeography (by decide),
   (tagid_decode_spec "nope").2 (by decide)⟩

/-- C6 counterexample: the input string "Not Applicable" is not any
cadence's short code or long-form synonym, yet `FrequencyFromString`
decodes it to the `UnknownFrequency` sentinel with a `nil` error — no
decode failure accompanies the sentinel, contrary to the claim. -/
theorem frequency_decode_spec_counterexample :
    FrequencyFromString "Not Applicable" = (Frequency.UnknownFrequency, none) ∧
    "Not Applicable" ∉ frequencySynonyms.map Prod.fst := by
  constructor
  · rfl
  · decide

/-- C6 (amended): every cadence short code or documented long-form synonym
decodes to its cadence with no error; the special string "Not Applicable"
decodes to the `UnknownFrequency` sentinel with no error; every other input
string decodes to the `UnknownFrequency` sentinel paired with a decode
failure, both returned to the caller. -/
theorem frequency_decode_spec (s : String) :
    (∀ f, (s, f) ∈ frequencySynonyms → FrequencyFromString s = (f, none)) ∧
    FrequencyFromString "Not Applicable" = (Frequency.UnknownFrequency, none) ∧
    (s ∉ "Not Applicable" :: frequencySynonyms.map Prod.fst →
      FrequencyFromString s
        = (Frequency.UnknownFrequency,
            some ("unknown frequency format: " ++ s))) := by
  refine ⟨?_, rfl, ?_⟩
  · intro f hf
    have hsound : ∀ p ∈ frequencySynonyms, FrequencyFromString p.1 = (p.2, none) := by
      decide
    exact hsound (s, f) hf
  · intro hs
    simp only [frequencySynonyms, List.map_cons, List.map_nil, List.mem_cons,
      List.not_mem_nil, or_false, not_or] at hs
    unfold FrequencyFromString
    split <;> first
      | rfl
      | simp_all

/-- C6 witness: the frequency codec exercised at the short code "q", the
long form "Quarterly, End of Period", and the unmapped string "zzz". -/
theorem frequency_decode_spec_witness :
    FrequencyFromString "q" = (Frequency.Quarterly, none) ∧
    FrequencyFromString "Quarterly, End of Period" = (Frequency.Quarterly, none) ∧
    FrequencyFromString "zzz"
      = (Frequency.UnknownFrequency, some ("unknown frequency format: " ++ "zzz")) :=
  ⟨(frequency_decode_spec "q").1 Frequency.Quarterly (by decide),
   (frequency_decode_spec "Quarterly, End of Period").1 Frequency.Quarterly (by decide),
   (frequency_decode_spec "zzz").2.2 (by decide)⟩

end Gofred
